import Mathlib

/-!
Shallow embedding of `src/src/App.vue` (single-file Vue component):
a retrying HTTP client (`fetchWithRetry`), a transient status-message
store (`mostrarMensaje` with a cancellable 4000 ms auto-clear timer),
and an employee-list controller (`obtenerEmpleados`, `agregarEmpleado`).

The component's reactive refs (`empleados`, `isLoading`, `esError`,
`mensajeEstado`, `nombreInput`, `mensajeTimeoutId`) become fields of an
explicit `AppState`.  Timers are modelled by a current time `now`, a
fresh-id counter and a list of pending timers; `setTimeout` registers a
timer firing at `now + 4000`, `clearTimeout id` removes the timer with
that id.  The network is an oracle mapping the attempt index to the
outcome of that axios call: `.ok v` is a 2xx response whose parsed body
is `v`, `.error e` is a network error or a non-2xx response (axios
throws in both cases).  Each operation returns the final state together
with the list of HTTP requests actually issued.
-/

/-- The `Empleado` interface of the source: `{ id_empleado: number; nombre: string }`. -/
structure Empleado where
  id_empleado : Int
  nombre : String
deriving DecidableEq, Repr

/-- Source constant: `const API_URL = 'http://localhost:4001'`. -/
def API_URL : String := "http://localhost:4001"

/-- Source constant: `const MAX_RETRIES = 3`. -/
def MAX_RETRIES : Nat := 3

/-- Source constant: `const DELAY_MS = 1000`. -/
def DELAY_MS : Nat := 1000

/-- Outcome of one failed axios call: a transport error, or a non-2xx
response with its status code (axios rejects on non-2xx by default). -/
inductive HttpError where
  | network
  | status (code : Nat)
deriving DecidableEq, Repr

deriving instance DecidableEq for Except

/-- Observable outcome of one run of `fetchWithRetry`: the value returned
or error thrown, the list of backoff delays performed (in order), and the
number of axios calls made. -/
structure RetryTrace (α : Type) where
  result : Except HttpError α
  delays : List Nat
  attemptsMade : Nat
deriving DecidableEq, Repr

/-- One HTTP request as issued by an axios call: url, method, and the JSON
body as field/value pairs (`[]` when no body is sent). -/
structure Request where
  url : String
  method : String
  data : List (String × String)
deriving DecidableEq, Repr

/-- Recursion worker for `fetchWithRetry`.  The source guard
`retries < MAX_RETRIES` is represented structurally by the countdown
`left = MAX_RETRIES - retries`: `left = 0` exactly when the guard fails,
and the recursive call at `retries + 1` gets `left - 1`. -/
def fetchWithRetryGo {α : Type} (oracle : Nat → Except HttpError α) :
    Nat → Nat → RetryTrace α
  | left, retries =>
    match oracle retries with
    | .ok v => ⟨.ok v, [], 1⟩
    | .error e =>
      match left with
      | 0 => ⟨.error e, [], 1⟩
      | left' + 1 =>
        let delay := DELAY_MS * 2 ^ retries
        let t := fetchWithRetryGo oracle left' (retries + 1)
        ⟨t.result, delay :: t.delays, t.attemptsMade + 1⟩

/-- Embeds `fetchWithRetry(url, options, retries = 0)`: try the call; on failure,
if `retries < MAX_RETRIES`, wait `DELAY_MS * 2 ^ retries` and recurse with
`retries + 1`, else rethrow the error.  In the source the default start is
`retries = 0`; every call site uses it. -/
def fetchWithRetry {α : Type} (oracle : Nat → Except HttpError α) (retries : Nat) :
    RetryTrace α :=
  fetchWithRetryGo oracle (MAX_RETRIES - retries) retries

/-- A pending `setTimeout` registration: its id and the absolute time
(in ms) at which it fires. -/
structure Timer where
  id : Nat
  fireAt : Nat
deriving DecidableEq, Repr

/-- The component's mutable state: the current time and timer bookkeeping
(`now`, `nextTimerId`, `pending`), and the reactive refs of the source in
declaration order (`empleados`, `isLoading`, `esError`, `mensajeEstado`,
`nombreInput`, `mensajeTimeoutId`). -/
structure AppState where
  now : Nat
  nextTimerId : Nat
  pending : List Timer
  empleados : List Empleado
  isLoading : Bool
  esError : Bool
  mensajeEstado : String
  nombreInput : String
  mensajeTimeoutId : Option Nat
deriving DecidableEq, Repr

/-- The initial state of the component: no timers, empty list, empty
message and input, `mensajeTimeoutId = null`. -/
def initState : AppState :=
  { now := 0, nextTimerId := 0, pending := [], empleados := [],
    isLoading := false, esError := false, mensajeEstado := "",
    nombreInput := "", mensajeTimeoutId := none }

/-- Embeds `clearTimeout(id)`: deregister the pending timer with that id (a no-op
when none is pending, as in the event loop). -/
def clearTimeoutById (id : Nat) (s : AppState) : AppState :=
  { s with pending := s.pending.filter (fun tm => tm.id ≠ id) }

/-- Embeds `mostrarMensaje(mensaje, error = false)`: cancel any timer recorded in
`mensajeTimeoutId`, set the message and the error flag, and when `error`
is false register a fresh timer firing 4000 ms from now and record its id.
In the error branch `mensajeTimeoutId` is left unchanged, exactly as in
the source (it may keep the id of the timer just cancelled). -/
def mostrarMensaje (mensaje : String) (error : Bool) (s : AppState) : AppState :=
  let s1 := match s.mensajeTimeoutId with
    | some id => clearTimeoutById id s
    | none => s
  let s2 := { s1 with mensajeEstado := mensaje, esError := error }
  if !error then
    { s2 with
      pending := s2.pending ++ [⟨s2.nextTimerId, s2.now + 4000⟩],
      mensajeTimeoutId := some s2.nextTimerId,
      nextTimerId := s2.nextTimerId + 1 }
  else s2

/-- The body of the `setTimeout` callback registered by `mostrarMensaje`:
`mensajeEstado.value = ''; mensajeTimeoutId = null`. -/
def autoClearCallback (s : AppState) : AppState :=
  { s with mensajeEstado := "", mensajeTimeoutId := none }

/-- Let `dt` milliseconds pass: every pending timer whose deadline is
reached is deregistered and its callback runs. -/
def tick (dt : Nat) (s : AppState) : AppState :=
  let t := s.now + dt
  let due := s.pending.filter (fun tm => tm.fireAt ≤ t)
  let s1 := { s with now := t, pending := s.pending.filter (fun tm => ¬ tm.fireAt ≤ t) }
  due.foldl (fun st _ => autoClearCallback st) s1

/-- External stimuli relevant to the message store: a call to
`mostrarMensaje`, or the passage of time. -/
inductive MsgEvent where
  | showMsg (text : String) (isError : Bool)
  | tick (dt : Nat)

/-- Apply one event to the state. -/
def stepMsg (e : MsgEvent) (s : AppState) : AppState :=
  match e with
  | .showMsg text isError => mostrarMensaje text isError s
  | .tick dt => tick dt s

/-- Run a sequence of events from a state. -/
def runMsg (evs : List MsgEvent) (s : AppState) : AppState :=
  evs.foldl (fun st e => stepMsg e st) s

/-- Timer sanity invariant: either no auto-clear timer is pending, or
exactly one is and `mensajeTimeoutId` records its id. -/
def TimerInv (s : AppState) : Prop :=
  s.pending = [] ∨ ∃ tm, s.pending = [tm] ∧ s.mensajeTimeoutId = some tm.id

instance (s : AppState) : Decidable (TimerInv s) := by
  unfold TimerInv
  rcases h : s.pending with _ | ⟨tm, rest⟩
  · exact isTrue (Or.inl rfl)
  · rcases rest with _ | ⟨tm2, rest2⟩
    · exact decidable_of_iff (s.mensajeTimeoutId = some tm.id) (by simp)
    · exact isFalse (by simp)

/-- The backoff schedule of the source, as a function of the starting
attempt index: `j` delays of `DELAY_MS * 2 ^ retries`, `DELAY_MS * 2 ^ (retries+1)`, … -/
def backoffDelays (retries j : Nat) : List Nat :=
  match j with
  | 0 => []
  | j + 1 => DELAY_MS * 2 ^ retries :: backoffDelays (retries + 1) j

/-- Embeds `nombreInput.value.trim()`: strip leading and trailing whitespace.
JavaScript's `String.prototype.trim` on the characters occurring here
(ASCII) agrees with `Char.isWhitespace`; we define it over the character
list so that it is kernel-computable. -/
def jsTrim (s : String) : String :=
  ⟨((s.toList.dropWhile Char.isWhitespace).reverse.dropWhile Char.isWhitespace).reverse⟩

/-- The comparator of `data.sort((a, b) => a.id_empleado - b.id_empleado)`
as an ordering relation: ascending by `id_empleado`. -/
def empleadoLe (a b : Empleado) : Prop :=
  a.id_empleado ≤ b.id_empleado

instance : DecidableRel empleadoLe := fun a b => Int.decLe _ _

instance : IsTotal Empleado empleadoLe :=
  ⟨fun a b => Int.le_total a.id_empleado b.id_empleado⟩

instance : IsTrans Empleado empleadoLe :=
  ⟨fun _ _ _ => Int.le_trans⟩

/-- Embeds `data.sort((a, b) => a.id_empleado - b.id_empleado)`: JavaScript
`Array.prototype.sort` is a stable sort by the comparator; any stable sort
computes the same list, so we embed it as a stable insertion sort by
`empleadoLe`. -/
def sortEmpleados (data : List Empleado) : List Empleado :=
  List.insertionSort empleadoLe data

/-- Embeds `obtenerEmpleados()`: set loading, clear the list and the error flag,
`fetchWithRetry` against `GET {API_URL}/empleado`; on success sort the
response data ascending by id, replace the list and show the count
message; on error show the connection-error message and set the error
flag; finally clear loading.  The oracle gives each axios attempt's
outcome; the returned list records every request issued (one identical
GET per attempt). -/
def obtenerEmpleados (oracle : Nat → Except HttpError (List Empleado))
    (s : AppState) : AppState × List Request :=
  let s1 := { s with isLoading := true, empleados := [], esError := false }
  let t := fetchWithRetry oracle 0
  let reqs := List.replicate t.attemptsMade ⟨API_URL ++ "/empleado", "GET", []⟩
  match t.result with
  | .ok data =>
    let s2 := { s1 with empleados := sortEmpleados data }
    let s3 := mostrarMensaje
      ("Lista actualizada (" ++ toString data.length ++ ") empleados") false s2
    ({ s3 with isLoading := false }, reqs)
  | .error _ =>
    let s2 := mostrarMensaje "Error al conectar con el servidor." true s1
    let s3 := { s2 with esError := true }
    ({ s3 with isLoading := false }, reqs)

/-- Embeds `agregarEmpleado()`: trim the input; when blank, show the validation
error and return (no network call).  Otherwise set loading and
`fetchWithRetry` against `POST {API_URL}/empleado` with body
`{ nombre }`; on success clear the input, show the added message and run
`obtenerEmpleados` (whose requests are appended to the log); on error
show the add-error message; finally clear loading.  The POST response
body is not consumed, so the post oracle's success value is `Unit`. -/
def agregarEmpleado (postOracle : Nat → Except HttpError Unit)
    (getOracle : Nat → Except HttpError (List Empleado))
    (s : AppState) : AppState × List Request :=
  let nombre := jsTrim s.nombreInput
  if nombre = "" then
    (mostrarMensaje "El nombre no puede estar vacío." true s, [])
  else
    let s1 := { s with isLoading := true }
    let t := fetchWithRetry postOracle 0
    let reqs := List.replicate t.attemptsMade
      ⟨API_URL ++ "/empleado", "POST", [("nombre", nombre)]⟩
    match t.result with
    | .ok _ =>
      let s2 := { s1 with nombreInput := "" }
      let s3 := mostrarMensaje ("Empleado \"" ++ nombre ++ "\" agregado ✅") false s2
      let res := obtenerEmpleados getOracle s3
      ({ res.1 with isLoading := false }, reqs ++ res.2)
    | .error _ =>
      let s2 := mostrarMensaje "Error al agregar empleado." true s1
      ({ s2 with isLoading := false }, reqs)

/-! ## Theorems -/

/-- The source recurrence of `fetchWithRetry`, with the guard written exactly
as in the code, holds of the countdown implementation. -/
theorem fetchWithRetry_eq {α : Type} (oracle : Nat → Except HttpError α) (retries : Nat) :
    fetchWithRetry oracle retries =
      match oracle retries with
      | .ok v => ⟨.ok v, [], 1⟩
      | .error e =>
        if retries < MAX_RETRIES then
          let t := fetchWithRetry oracle (retries + 1)
          ⟨t.result, DELAY_MS * 2 ^ retries :: t.delays, t.attemptsMade + 1⟩
        else ⟨.error e, [], 1⟩ := by
  unfold fetchWithRetry
  rw [fetchWithRetryGo]
  cases h : oracle retries with
  | ok v => simp
  | error e =>
    simp only
    by_cases hlt : retries < MAX_RETRIES
    · have h1 : MAX_RETRIES - retries = (MAX_RETRIES - (retries + 1)) + 1 := by omega
      rw [h1]
      simp [hlt]
    · have h0 : MAX_RETRIES - retries = 0 := by omega
      rw [h0]
      simp [hlt]

/-- When the first `j` attempts from `retries` fail and attempt `retries + j`
succeeds, with `j` within the remaining budget, the worker returns the
success value after the full backoff schedule for those `j` failures. -/
theorem fetchWithRetryGo_ok {α : Type} (oracle : Nat → Except HttpError α)
    (errs : Nat → HttpError) (j : Nat) :
    ∀ (left retries : Nat) (v : α), j ≤ left →
      (∀ i, i < j → oracle (retries + i) = .error (errs (retries + i))) →
      oracle (retries + j) = .ok v →
      fetchWithRetryGo oracle left retries = ⟨.ok v, backoffDelays retries j, j + 1⟩ := by
  induction j with
  | zero =>
    intro left retries v _ _ hok
    rw [fetchWithRetryGo]
    rw [Nat.add_zero] at hok
    rw [hok]
    rfl
  | succ j ih =>
    intro left retries v hj hfail hok
    rw [fetchWithRetryGo]
    have h0 : oracle retries = .error (errs retries) := by
      have h := hfail 0 (Nat.succ_pos j)
      rwa [Nat.add_zero] at h
    rw [h0]
    obtain ⟨left', rfl⟩ : ∃ l, left = l + 1 := ⟨left - 1, by omega⟩
    have hfail' : ∀ i, i < j → oracle (retries + 1 + i) = .error (errs (retries + 1 + i)) := by
      intro i hi
      have h := hfail (i + 1) (by omega)
      rwa [show retries + (i + 1) = retries + 1 + i from by omega] at h
    have hok' : oracle (retries + 1 + j) = .ok v := by
      rwa [show retries + 1 + j = retries + (j + 1) from by omega]
    have hrec := ih left' (retries + 1) v (by omega) hfail' hok'
    simp only [hrec]
    rfl

/-- When attempts `retries, …, retries + left` all fail, the worker makes
`left + 1` attempts, performs the full backoff schedule, and surfaces the
last error observed. -/
theorem fetchWithRetryGo_err {α : Type} (oracle : Nat → Except HttpError α)
    (errs : Nat → HttpError) (left : Nat) :
    ∀ retries : Nat,
      (∀ i, i ≤ left → oracle (retries + i) = .error (errs (retries + i))) →
      fetchWithRetryGo (α := α) oracle left retries =
        ⟨.error (errs (retries + left)), backoffDelays retries left, left + 1⟩ := by
  induction left with
  | zero =>
    intro retries hfail
    rw [fetchWithRetryGo]
    have h0 : oracle retries = .error (errs retries) := by
      have h := hfail 0 (Nat.le_refl 0)
      rwa [Nat.add_zero] at h
    rw [h0]
    rfl
  | succ left ih =>
    intro retries hfail
    rw [fetchWithRetryGo]
    have h0 : oracle retries = .error (errs retries) := by
      have h := hfail 0 (Nat.zero_le _)
      rwa [Nat.add_zero] at h
    rw [h0]
    have hfail' : ∀ i, i ≤ left → oracle (retries + 1 + i) = .error (errs (retries + 1 + i)) := by
      intro i hi
      have h := hfail (i + 1) (by omega)
      rwa [show retries + (i + 1) = retries + 1 + i from by omega] at h
    have hrec := ih (retries + 1) hfail'
    simp only [hrec]
    have harith : retries + 1 + left = retries + (left + 1) := by omega
    rw [harith]
    rfl

/-- C1: for every sequence of at most 3 induced transient failures followed
by one success, `fetchWithRetry` returns the success response unmodified,
and the delays performed between successive attempts are exactly 1000 ms,
2000 ms, 4000 ms, in that order (the first `k` of them for `k` failures). -/
theorem C1_fetchWithRetry_success_backoff {α : Type}
    (oracle : Nat → Except HttpError α) (errs : Nat → HttpError)
    (k : Nat) (v : α) (hk : k ≤ 3)
    (hfail : ∀ i, i < k → oracle i = .error (errs i))
    (hok : oracle k = .ok v) :
    fetchWithRetry oracle 0 = ⟨.ok v, List.take k [1000, 2000, 4000], k + 1⟩ := by
  have h := fetchWithRetryGo_ok oracle errs k 3 0 v hk
    (fun i hi => by simpa using hfail i hi) (by simpa using hok)
  have hgo : fetchWithRetry oracle 0 = fetchWithRetryGo oracle 3 0 := rfl
  rw [hgo, h]
  have hdelays : backoffDelays 0 k = List.take k [1000, 2000, 4000] := by
    interval_cases k <;> rfl
  rw [hdelays]

/-- Witness for C1: two induced network failures then success with value 42. -/
theorem C1_witness :
    fetchWithRetry
        (fun n => if n < 2 then Except.error HttpError.network else Except.ok 42) 0 =
      ⟨Except.ok 42, List.take 2 [1000, 2000, 4000], 3⟩ :=
  C1_fetchWithRetry_success_backoff
    (fun n => if n < 2 then Except.error HttpError.network else Except.ok 42)
    (fun _ => HttpError.network) 2 42 (by decide) (by decide) (by decide)

/-- C2: for every sequence of 4 consecutive failures, `fetchWithRetry`
raises after the 4th attempt (4 attempts made, only 3 backoff delays, no
further retries), and the error surfaced to the caller is the last failure
observed (the one of attempt index 3). -/
theorem C2_fetchWithRetry_exhaustion {α : Type}
    (oracle : Nat → Except HttpError α) (errs : Nat → HttpError)
    (hfail : ∀ i, i ≤ 3 → oracle i = .error (errs i)) :
    fetchWithRetry (α := α) oracle 0 =
      ⟨.error (errs 3), [1000, 2000, 4000], 4⟩ := by
  have h := fetchWithRetryGo_err oracle errs 3 0
    (fun i hi => by simpa using hfail i hi)
  have hgo : fetchWithRetry (α := α) oracle 0 = fetchWithRetryGo oracle 3 0 := rfl
  rw [hgo, h]
  rfl

/-- Witness for C2: four consecutive HTTP 500 failures; the last error is
surfaced after 4 attempts and delays 1000 ms, 2000 ms, 4000 ms. -/
theorem C2_witness :
    fetchWithRetry (α := Unit) (fun _ => Except.error (HttpError.status 500)) 0 =
      ⟨Except.error (HttpError.status 500), [1000, 2000, 4000], 4⟩ :=
  C2_fetchWithRetry_exhaustion (fun _ => Except.error (HttpError.status 500))
    (fun _ => HttpError.status 500) (by decide)

/-- Under the timer invariant, a non-error `mostrarMensaje` cancels whatever
was pending and leaves exactly one fresh timer, due 4000 ms from now. -/
theorem mostrarMensaje_false_state (m : String) (s : AppState) (h : TimerInv s) :
    mostrarMensaje m false s =
      { s with pending := [⟨s.nextTimerId, s.now + 4000⟩],
               mensajeEstado := m, esError := false,
               mensajeTimeoutId := some s.nextTimerId,
               nextTimerId := s.nextTimerId + 1 } := by
  rcases h with h | ⟨tm, hp, hid⟩
  · unfold mostrarMensaje clearTimeoutById
    cases hmt : s.mensajeTimeoutId <;> simp [h, hmt]
  · unfold mostrarMensaje clearTimeoutById
    rw [hid]
    simp [hp]

/-- Under the timer invariant, an error `mostrarMensaje` cancels whatever was
pending and registers nothing; `mensajeTimeoutId` is left unchanged (the
source does not null it in this branch). -/
theorem mostrarMensaje_true_state (m : String) (s : AppState) (h : TimerInv s) :
    mostrarMensaje m true s =
      { s with pending := [], mensajeEstado := m, esError := true } := by
  rcases h with h | ⟨tm, hp, hid⟩
  · unfold mostrarMensaje clearTimeoutById
    cases hmt : s.mensajeTimeoutId <;> simp [h, hmt]
  · unfold mostrarMensaje clearTimeoutById
    rw [hid]
    simp [hp]

/-- Ticking with no pending timer only advances the clock. -/
theorem tick_pending_nil (dt : Nat) (s : AppState) (h : s.pending = []) :
    tick dt s = { s with now := s.now + dt } := by
  unfold tick
  simp [h]

/-- Ticking past a single pending timer that is not yet due only advances
the clock. -/
theorem tick_single_not_due (dt : Nat) (s : AppState) (tm : Timer)
    (hp : s.pending = [tm]) (hfa : s.now + dt < tm.fireAt) :
    tick dt s = { s with now := s.now + dt } := by
  unfold tick
  simp [hp, Nat.not_le.mpr hfa, hfa, List.filter]

/-- Ticking to or past the deadline of the single pending timer runs its
callback: the message is cleared and the timer id nulled. -/
theorem tick_single_due (dt : Nat) (s : AppState) (tm : Timer)
    (hp : s.pending = [tm]) (hfa : tm.fireAt ≤ s.now + dt) :
    tick dt s =
      { s with now := s.now + dt, pending := [],
               mensajeEstado := "", mensajeTimeoutId := none } := by
  unfold tick
  simp [hp, hfa, List.filter, autoClearCallback]

/-- Showing a message preserves the timer invariant. -/
theorem timerInv_mostrarMensaje (m : String) (e : Bool) (s : AppState)
    (h : TimerInv s) : TimerInv (mostrarMensaje m e s) := by
  cases e
  · rw [mostrarMensaje_false_state m s h]
    exact Or.inr ⟨⟨s.nextTimerId, s.now + 4000⟩, rfl, rfl⟩
  · rw [mostrarMensaje_true_state m s h]
    exact Or.inl rfl

/-- Time passing preserves the timer invariant. -/
theorem timerInv_tick (dt : Nat) (s : AppState) (h : TimerInv s) :
    TimerInv (tick dt s) := by
  rcases h with h | ⟨tm, hp, hid⟩
  · rw [tick_pending_nil dt s h]
    exact Or.inl h
  · by_cases hfa : tm.fireAt ≤ s.now + dt
    · rw [tick_single_due dt s tm hp hfa]
      exact Or.inl rfl
    · rw [tick_single_not_due dt s tm hp (Nat.not_le.mp hfa)]
      exact Or.inr ⟨tm, hp, hid⟩

/-- Every state reachable from a state satisfying the timer invariant by
`show`/`tick` events satisfies the timer invariant. -/
theorem timerInv_runMsg (evs : List MsgEvent) :
    ∀ s : AppState, TimerInv s → TimerInv (runMsg evs s) := by
  induction evs with
  | nil => intro s h; exact h
  | cons e rest ih =>
    intro s h
    have hstep : TimerInv (stepMsg e s) := by
      cases e with
      | showMsg text isError => exact timerInv_mostrarMensaje text isError s h
      | tick dt => exact timerInv_tick dt s h
    exact ih (stepMsg e s) hstep

/-- Time passing over a state with no pending timer changes neither the
message nor the (absence of) pending timers. -/
theorem runMsg_ticks_pending_nil (dts : List Nat) :
    ∀ s : AppState, s.pending = [] →
      (runMsg (dts.map MsgEvent.tick) s).mensajeEstado = s.mensajeEstado ∧
      (runMsg (dts.map MsgEvent.tick) s).pending = [] := by
  induction dts with
  | nil => intro s h; exact ⟨rfl, h⟩
  | cons dt rest ih =>
    intro s h
    have h1 : runMsg ((dt :: rest).map MsgEvent.tick) s
        = runMsg (rest.map MsgEvent.tick) (tick dt s) := rfl
    rw [h1, tick_pending_nil dt s h]
    exact ih _ h

/-- C3: after `mostrarMensaje text false` with no further call, the message
still reads `text` strictly before +4000 ms and is cleared exactly at
+4000 ms; a second `mostrarMensaje` call before that deadline cancels the
first pending clear (no timer with the first registration's id survives);
and along any event sequence from the initial state at most one auto-clear
timer is pending. -/
theorem C3_mostrarMensaje_autoclear (s : AppState) (text : String) (h : TimerInv s) :
    (∀ dt, dt < 4000 →
      (tick dt (mostrarMensaje text false s)).mensajeEstado = text) ∧
    (tick 4000 (mostrarMensaje text false s)).mensajeEstado = "" ∧
    (tick 4000 (mostrarMensaje text false s)).pending = [] ∧
    (∀ dt, dt < 4000 → ∀ text2 isError2,
      ∀ tm ∈ (mostrarMensaje text2 isError2
        (tick dt (mostrarMensaje text false s))).pending,
        tm.id ≠ s.nextTimerId) ∧
    (∀ evs : List MsgEvent, (runMsg evs initState).pending.length ≤ 1) := by
  have hs' := mostrarMensaje_false_state text s h
  refine ⟨?_, ?_, ?_, ?_, ?_⟩
  · intro dt hdt
    rw [hs', tick_single_not_due dt _ ⟨s.nextTimerId, s.now + 4000⟩ rfl (by simp; omega)]
  · rw [hs', tick_single_due 4000 _ ⟨s.nextTimerId, s.now + 4000⟩ rfl (by simp)]
  · rw [hs', tick_single_due 4000 _ ⟨s.nextTimerId, s.now + 4000⟩ rfl (by simp)]
  · intro dt hdt text2 isError2 tm hmem
    rw [hs', tick_single_not_due dt _ ⟨s.nextTimerId, s.now + 4000⟩ rfl (by simp; omega)]
      at hmem
    set s1 : AppState :=
      { s with pending := [⟨s.nextTimerId, s.now + 4000⟩],
               mensajeEstado := text, esError := false,
               mensajeTimeoutId := some s.nextTimerId,
               nextTimerId := s.nextTimerId + 1, now := s.now + dt } with hs1
    have hinv1 : TimerInv s1 :=
      Or.inr ⟨⟨s.nextTimerId, s.now + 4000⟩, rfl, rfl⟩
    cases isError2
    · rw [mostrarMensaje_false_state text2 s1 hinv1] at hmem
      simp at hmem
      rw [hmem]
      simp [hs1]
    · rw [mostrarMensaje_true_state text2 s1 hinv1] at hmem
      simp at hmem
  · intro evs
    have hinv := timerInv_runMsg evs initState (Or.inl rfl)
    rcases hinv with h0 | ⟨tm, hp, _⟩
    · simp [h0]
    · simp [hp]

/-- Witness for C3: the auto-clear behaviour at the initial state with
message "ok". -/
theorem C3_witness :
    (∀ dt, dt < 4000 →
      (tick dt (mostrarMensaje "ok" false initState)).mensajeEstado = "ok") ∧
    (tick 4000 (mostrarMensaje "ok" false initState)).mensajeEstado = "" ∧
    (tick 4000 (mostrarMensaje "ok" false initState)).pending = [] ∧
    (∀ dt, dt < 4000 → ∀ text2 isError2,
      ∀ tm ∈ (mostrarMensaje text2 isError2
        (tick dt (mostrarMensaje "ok" false initState))).pending,
        tm.id ≠ initState.nextTimerId) ∧
    (∀ evs : List MsgEvent, (runMsg evs initState).pending.length ≤ 1) :=
  C3_mostrarMensaje_autoclear initState "ok" (by decide)

/-- C4: `mostrarMensaje text true` schedules no auto-clear: no timer is
pending afterwards, the error message and flag are set, and the message
remains `text` under any further passage of time (it is only superseded by
the next `mostrarMensaje` call). -/
theorem C4_mostrarMensaje_error_persists (s : AppState) (text : String)
    (h : TimerInv s) :
    (mostrarMensaje text true s).pending = [] ∧
    (mostrarMensaje text true s).mensajeEstado = text ∧
    (mostrarMensaje text true s).esError = true ∧
    ∀ dts : List Nat,
      (runMsg (dts.map MsgEvent.tick) (mostrarMensaje text true s)).mensajeEstado
        = text := by
  have hs' := mostrarMensaje_true_state text s h
  refine ⟨by rw [hs'], by rw [hs'], by rw [hs'], ?_⟩
  intro dts
  have := runMsg_ticks_pending_nil dts (mostrarMensaje text true s) (by rw [hs'])
  rw [this.1, hs']

/-- Frame lemma: `mostrarMensaje` sets the message and the error flag and leaves the
employee list, the input field, the loading flag and the clock alone. -/
theorem mostrarMensaje_frame (m : String) (e : Bool) (s : AppState) :
    (mostrarMensaje m e s).mensajeEstado = m ∧
    (mostrarMensaje m e s).esError = e ∧
    (mostrarMensaje m e s).empleados = s.empleados ∧
    (mostrarMensaje m e s).nombreInput = s.nombreInput ∧
    (mostrarMensaje m e s).isLoading = s.isLoading := by
  unfold mostrarMensaje clearTimeoutById
  cases s.mensajeTimeoutId <;> cases e <;> simp

/-- Every run of the retry worker makes at least one attempt. -/
theorem fetchWithRetryGo_attempts_pos {α : Type} (oracle : Nat → Except HttpError α)
    (left retries : Nat) :
    1 ≤ (fetchWithRetryGo oracle left retries).attemptsMade := by
  rw [fetchWithRetryGo]
  cases oracle retries with
  | ok v => simp
  | error e => cases left <;> simp

/-- Unfolding `obtenerEmpleados` when the wrapped fetch succeeds. -/
theorem obtenerEmpleados_ok_eq (oracle : Nat → Except HttpError (List Empleado))
    (data : List Empleado) (s : AppState)
    (h : (fetchWithRetry oracle 0).result = Except.ok data) :
    obtenerEmpleados oracle s =
      ({ mostrarMensaje ("Lista actualizada (" ++ toString data.length ++ ") empleados")
           false
           { s with isLoading := true, empleados := sortEmpleados data, esError := false }
         with isLoading := false },
       List.replicate (fetchWithRetry oracle 0).attemptsMade
         ⟨API_URL ++ "/empleado", "GET", []⟩) := by
  unfold obtenerEmpleados
  dsimp only
  split
  · rename_i data' heq
    rw [h] at heq
    cases heq
    rfl
  · rename_i e heq
    rw [h] at heq
    cases heq

/-- Unfolding `obtenerEmpleados` when the wrapped fetch fails after
exhausting its retries. -/
theorem obtenerEmpleados_err_eq (oracle : Nat → Except HttpError (List Empleado))
    (e : HttpError) (s : AppState)
    (h : (fetchWithRetry oracle 0).result = Except.error e) :
    obtenerEmpleados oracle s =
      ({ mostrarMensaje "Error al conectar con el servidor." true
           { s with isLoading := true, empleados := [], esError := false }
         with esError := true, isLoading := false },
       List.replicate (fetchWithRetry oracle 0).attemptsMade
         ⟨API_URL ++ "/empleado", "GET", []⟩) := by
  unfold obtenerEmpleados
  dsimp only
  split
  · rename_i data' heq
    rw [h] at heq
    cases heq
  · rename_i e' heq
    rfl

/-- Unfolding `agregarEmpleado` on blank (whitespace-only) input. -/
theorem agregarEmpleado_blank_eq (postOracle : Nat → Except HttpError Unit)
    (getOracle : Nat → Except HttpError (List Empleado)) (s : AppState)
    (h : jsTrim s.nombreInput = "") :
    agregarEmpleado postOracle getOracle s =
      (mostrarMensaje "El nombre no puede estar vacío." true s, []) := by
  unfold agregarEmpleado
  rw [if_pos h]

/-- Unfolding `agregarEmpleado` on non-blank input when the wrapped POST
succeeds. -/
theorem agregarEmpleado_ok_eq (postOracle : Nat → Except HttpError Unit)
    (getOracle : Nat → Except HttpError (List Empleado)) (s : AppState)
    (hname : jsTrim s.nombreInput ≠ "")
    (h : (fetchWithRetry postOracle 0).result = Except.ok ()) :
    agregarEmpleado postOracle getOracle s =
      (({ (obtenerEmpleados getOracle
            (mostrarMensaje ("Empleado \"" ++ jsTrim s.nombreInput ++ "\" agregado ✅") false
              { s with isLoading := true, nombreInput := "" })).1
          with isLoading := false }),
       List.replicate (fetchWithRetry postOracle 0).attemptsMade
           ⟨API_URL ++ "/empleado", "POST", [("nombre", jsTrim s.nombreInput)]⟩
         ++ (obtenerEmpleados getOracle
            (mostrarMensaje ("Empleado \"" ++ jsTrim s.nombreInput ++ "\" agregado ✅") false
              { s with isLoading := true, nombreInput := "" })).2) := by
  unfold agregarEmpleado
  rw [if_neg hname]
  dsimp only
  split
  · rfl
  · rename_i e heq
    rw [h] at heq
    cases heq

/-- Unfolding `agregarEmpleado` on non-blank input when the wrapped POST
fails after exhausting its retries. -/
theorem agregarEmpleado_err_eq (postOracle : Nat → Except HttpError Unit)
    (getOracle : Nat → Except HttpError (List Empleado)) (s : AppState)
    (hname : jsTrim s.nombreInput ≠ "")
    (e : HttpError) (h : (fetchWithRetry postOracle 0).result = Except.error e) :
    agregarEmpleado postOracle getOracle s =
      ({ mostrarMensaje "Error al agregar empleado." true { s with isLoading := true }
         with isLoading := false },
       List.replicate (fetchWithRetry postOracle 0).attemptsMade
         ⟨API_URL ++ "/empleado", "POST", [("nombre", jsTrim s.nombreInput)]⟩) := by
  unfold agregarEmpleado
  rw [if_neg hname]
  dsimp only
  split
  · rename_i u heq
    rw [h] at heq
    cases heq
  · rfl

/-- Witness for C4: an error message at the initial state persists across
a 10000 ms tick. -/
theorem C4_witness :
    (mostrarMensaje "boom" true initState).pending = [] ∧
    (mostrarMensaje "boom" true initState).mensajeEstado = "boom" ∧
    (mostrarMensaje "boom" true initState).esError = true ∧
    ∀ dts : List Nat,
      (runMsg (dts.map MsgEvent.tick) (mostrarMensaje "boom" true initState)).mensajeEstado
        = "boom" :=
  C4_mostrarMensaje_error_persists initState "boom" (by decide)

/-- The first request issued by a retry phase followed by anything else. -/
theorem head_replicate_append (n : Nat) (hn : 1 ≤ n) (r : Request) (rest : List Request) :
    (List.replicate n r ++ rest).head? = some r := by
  obtain ⟨m, rfl⟩ : ∃ m, n = m + 1 := ⟨n - 1, by omega⟩
  rw [List.replicate_succ]
  rfl

/-- C5: on blank or whitespace-only input, `agregarEmpleado` issues no
network call and shows the validation error message; on non-blank input the
first request issued is the POST carrying the trimmed name. -/
theorem C5_agregarEmpleado_validation (postOracle : Nat → Except HttpError Unit)
    (getOracle : Nat → Except HttpError (List Empleado)) (s : AppState) :
    (jsTrim s.nombreInput = "" →
      (agregarEmpleado postOracle getOracle s).2 = [] ∧
      (agregarEmpleado postOracle getOracle s).1.mensajeEstado
        = "El nombre no puede estar vacío." ∧
      (agregarEmpleado postOracle getOracle s).1.esError = true) ∧
    (jsTrim s.nombreInput ≠ "" →
      (agregarEmpleado postOracle getOracle s).2.head?
        = some ⟨API_URL ++ "/empleado", "POST", [("nombre", jsTrim s.nombreInput)]⟩) := by
  constructor
  · intro hblank
    rw [agregarEmpleado_blank_eq postOracle getOracle s hblank]
    exact ⟨rfl, (mostrarMensaje_frame _ true s).1, (mostrarMensaje_frame _ true s).2.1⟩
  · intro hname
    have hpos : 1 ≤ (fetchWithRetry postOracle 0).attemptsMade :=
      fetchWithRetryGo_attempts_pos postOracle (MAX_RETRIES - 0) 0
    cases hres : (fetchWithRetry postOracle 0).result with
    | ok u =>
      cases u
      rw [agregarEmpleado_ok_eq postOracle getOracle s hname hres]
      exact head_replicate_append _ hpos _ _
    | error e =>
      rw [agregarEmpleado_err_eq postOracle getOracle s hname e hres]
      have := head_replicate_append (fetchWithRetry postOracle 0).attemptsMade hpos
        ⟨API_URL ++ "/empleado", "POST", [("nombre", jsTrim s.nombreInput)]⟩ []
      simpa using this

/-- Witness for C5: `add("   ")` issues no request and shows the validation
error. -/
theorem C5_witness :
    (agregarEmpleado (fun _ => Except.ok ()) (fun _ => Except.ok [])
        { initState with nombreInput := "   " }).2 = [] ∧
    (agregarEmpleado (fun _ => Except.ok ()) (fun _ => Except.ok [])
        { initState with nombreInput := "   " }).1.mensajeEstado
      = "El nombre no puede estar vacío." ∧
    (agregarEmpleado (fun _ => Except.ok ()) (fun _ => Except.ok [])
        { initState with nombreInput := "   " }).1.esError = true :=
  (C5_agregarEmpleado_validation (fun _ => Except.ok ()) (fun _ => Except.ok [])
    { initState with nombreInput := "   " }).1 (by decide)

/-- C6: every successful refresh replaces the list wholesale with the
fetched records sorted ascending by id (a sorted permutation of the
response data) and shows "Lista actualizada (N) empleados" with N the
record count; in particular, for server response
`[{id_empleado: 3, nombre: "B"}, {id_empleado: 1, nombre: "A"}]` the
displayed order is A (#1), B (#3) and the message reads
"Lista actualizada (2) empleados". -/
theorem C6_obtenerEmpleados_success (oracle : Nat → Except HttpError (List Empleado))
    (data : List Empleado) (s : AppState)
    (h : (fetchWithRetry oracle 0).result = Except.ok data) :
    ((obtenerEmpleados oracle s).1.empleados = sortEmpleados data ∧
     List.Sorted empleadoLe (obtenerEmpleados oracle s).1.empleados ∧
     (obtenerEmpleados oracle s).1.empleados.Perm data ∧
     (obtenerEmpleados oracle s).1.mensajeEstado
       = "Lista actualizada (" ++ toString data.length ++ ") empleados") ∧
    (∀ s2 : AppState,
      (obtenerEmpleados (fun _ => Except.ok [⟨3, "B"⟩, ⟨1, "A"⟩]) s2).1.empleados
          = [⟨1, "A"⟩, ⟨3, "B"⟩] ∧
      (obtenerEmpleados (fun _ => Except.ok [⟨3, "B"⟩, ⟨1, "A"⟩]) s2).1.mensajeEstado
          = "Lista actualizada (2) empleados") := by
  have hmain : ∀ (oracle2 : Nat → Except HttpError (List Empleado))
      (data2 : List Empleado) (s2 : AppState),
      (fetchWithRetry oracle2 0).result = Except.ok data2 →
      (obtenerEmpleados oracle2 s2).1.empleados = sortEmpleados data2 ∧
      (obtenerEmpleados oracle2 s2).1.mensajeEstado
        = "Lista actualizada (" ++ toString data2.length ++ ") empleados" := by
    intro oracle2 data2 s2 h2
    rw [obtenerEmpleados_ok_eq oracle2 data2 s2 h2]
    have hframe := mostrarMensaje_frame
      ("Lista actualizada (" ++ toString data2.length ++ ") empleados") false
      { s2 with isLoading := true, empleados := sortEmpleados data2, esError := false }
    exact ⟨hframe.2.2.1, hframe.1⟩
  obtain ⟨hemp, hmsg⟩ := hmain oracle data s h
  refine ⟨⟨hemp, ?_, ?_, hmsg⟩, ?_⟩
  · rw [hemp]
    exact List.sorted_insertionSort empleadoLe data
  · rw [hemp]
    exact List.perm_insertionSort empleadoLe data
  · intro s2
    have h2 : (fetchWithRetry (fun _ => Except.ok [(⟨3, "B"⟩ : Empleado), ⟨1, "A"⟩]) 0).result
        = Except.ok [⟨3, "B"⟩, ⟨1, "A"⟩] := rfl
    obtain ⟨he, hm⟩ := hmain (fun _ => Except.ok [⟨3, "B"⟩, ⟨1, "A"⟩]) [⟨3, "B"⟩, ⟨1, "A"⟩] s2 h2
    constructor
    · rw [he]
      decide
    · rw [hm]
      decide

/-- Witness for C6: the scenario run at the initial state. -/
theorem C6_witness :
    (obtenerEmpleados (fun _ => Except.ok [⟨3, "B"⟩, ⟨1, "A"⟩]) initState).1.empleados
        = [⟨1, "A"⟩, ⟨3, "B"⟩] ∧
    (obtenerEmpleados (fun _ => Except.ok [⟨3, "B"⟩, ⟨1, "A"⟩]) initState).1.mensajeEstado
        = "Lista actualizada (2) empleados" :=
  (C6_obtenerEmpleados_success (fun _ => Except.ok [⟨3, "B"⟩, ⟨1, "A"⟩])
    [⟨3, "B"⟩, ⟨1, "A"⟩] initState rfl).2 initState

/-- C7: when the write endpoint fails on all 4 attempts of a non-blank
`add`, the input field keeps its prior value, the error message is shown
with the error flag set, the loading flag is false afterwards, and exactly
4 POST attempts were made. -/
theorem C7_agregarEmpleado_postFail (postOracle : Nat → Except HttpError Unit)
    (getOracle : Nat → Except HttpError (List Empleado))
    (errs : Nat → HttpError) (s : AppState)
    (hname : jsTrim s.nombreInput ≠ "")
    (hfail : ∀ i, i ≤ 3 → postOracle i = .error (errs i)) :
    (agregarEmpleado postOracle getOracle s).1.nombreInput = s.nombreInput ∧
    (agregarEmpleado postOracle getOracle s).1.mensajeEstado
      = "Error al agregar empleado." ∧
    (agregarEmpleado postOracle getOracle s).1.esError = true ∧
    (agregarEmpleado postOracle getOracle s).1.isLoading = false ∧
    (agregarEmpleado postOracle getOracle s).2.length = 4 := by
  have hfetch := fetchWithRetryGo_err postOracle errs 3 0
    (fun i hi => by simpa using hfail i hi)
  have hres : (fetchWithRetry postOracle 0).result = Except.error (errs 3) := by
    have hgo : fetchWithRetry postOracle 0 = fetchWithRetryGo postOracle 3 0 := rfl
    rw [hgo, hfetch]
  have hatt : (fetchWithRetry postOracle 0).attemptsMade = 4 := by
    have hgo : fetchWithRetry postOracle 0 = fetchWithRetryGo postOracle 3 0 := rfl
    rw [hgo, hfetch]
  rw [agregarEmpleado_err_eq postOracle getOracle s hname (errs 3) hres]
  have hframe := mostrarMensaje_frame "Error al agregar empleado." true
    { s with isLoading := true }
  refine ⟨hframe.2.2.2.1, hframe.1, hframe.2.1, rfl, ?_⟩
  simp [hatt]

/-- Witness for C7: `add` with input "Carla" against a write endpoint that
always times out. -/
theorem C7_witness :
    (agregarEmpleado (fun _ => Except.error HttpError.network) (fun _ => Except.ok [])
        { initState with nombreInput := "Carla" }).1.nombreInput = "Carla" ∧
    (agregarEmpleado (fun _ => Except.error HttpError.network) (fun _ => Except.ok [])
        { initState with nombreInput := "Carla" }).1.mensajeEstado
      = "Error al agregar empleado." ∧
    (agregarEmpleado (fun _ => Except.error HttpError.network) (fun _ => Except.ok [])
        { initState with nombreInput := "Carla" }).1.esError = true ∧
    (agregarEmpleado (fun _ => Except.error HttpError.network) (fun _ => Except.ok [])
        { initState with nombreInput := "Carla" }).1.isLoading = false ∧
    (agregarEmpleado (fun _ => Except.error HttpError.network) (fun _ => Except.ok [])
        { initState with nombreInput := "Carla" }).2.length = 4 := by
  have h := C7_agregarEmpleado_postFail (fun _ => Except.error HttpError.network)
    (fun _ => Except.ok []) (fun _ => HttpError.network)
    { initState with nombreInput := "Carla" } (by decide) (by decide)
  simpa using h

/-- Counterexample to C8: with identical retry-exhausted failures, the
refresh path and the add path surface two different Spanish error texts
("Error al conectar con el servidor." vs "Error al agregar empleado."),
not one shared generic message. -/
theorem C8_counterexample :
    (obtenerEmpleados (fun _ => Except.error HttpError.network) initState).1.mensajeEstado
      = "Error al conectar con el servidor." ∧
    (agregarEmpleado (fun _ => Except.error HttpError.network) (fun _ => Except.ok [])
        { initState with nombreInput := "Carla" }).1.mensajeEstado
      = "Error al agregar empleado." ∧
    (obtenerEmpleados (fun _ => Except.error HttpError.network) initState).1.mensajeEstado
      ≠ (agregarEmpleado (fun _ => Except.error HttpError.network) (fun _ => Except.ok [])
          { initState with nombreInput := "Carla" }).1.mensajeEstado := by
  refine ⟨by decide, by decide, by decide⟩

/-- C8 (amended): within each operation, retry exhaustion surfaces a fixed
generic error message that does not depend on whether the underlying
failures were network errors or non-2xx responses — but the two operations
use different texts: refresh shows "Error al conectar con el servidor.",
add shows "Error al agregar empleado.". -/
theorem C8_exhaustion_messages (getOracle : Nat → Except HttpError (List Empleado))
    (postOracle : Nat → Except HttpError Unit)
    (getErrs postErrs : Nat → HttpError) (s t : AppState)
    (hname : jsTrim t.nombreInput ≠ "")
    (hg : ∀ i, i ≤ 3 → getOracle i = .error (getErrs i))
    (hp : ∀ i, i ≤ 3 → postOracle i = .error (postErrs i)) :
    (obtenerEmpleados getOracle s).1.mensajeEstado
      = "Error al conectar con el servidor." ∧
    (obtenerEmpleados getOracle s).1.esError = true ∧
    (agregarEmpleado postOracle getOracle t).1.mensajeEstado
      = "Error al agregar empleado." ∧
    (agregarEmpleado postOracle getOracle t).1.esError = true := by
  have hgres : (fetchWithRetry getOracle 0).result = Except.error (getErrs 3) := by
    have hgo : fetchWithRetry getOracle 0 = fetchWithRetryGo getOracle 3 0 := rfl
    rw [hgo, fetchWithRetryGo_err getOracle getErrs 3 0 (fun i hi => by simpa using hg i hi)]
  have hpres : (fetchWithRetry postOracle 0).result = Except.error (postErrs 3) := by
    have hgo : fetchWithRetry postOracle 0 = fetchWithRetryGo postOracle 3 0 := rfl
    rw [hgo, fetchWithRetryGo_err postOracle postErrs 3 0 (fun i hi => by simpa using hp i hi)]
  rw [obtenerEmpleados_err_eq getOracle (getErrs 3) s hgres,
    agregarEmpleado_err_eq postOracle getOracle t hname (postErrs 3) hpres]
  have hf1 := mostrarMensaje_frame "Error al conectar con el servidor." true
    { s with isLoading := true, empleados := [], esError := false }
  have hf2 := mostrarMensaje_frame "Error al agregar empleado." true
    { t with isLoading := true }
  exact ⟨hf1.1, rfl, hf2.1, hf2.2.1⟩

/-- Witness for C8 (amended): one exhaustion by network error, one by
HTTP 500, each surfacing its operation's fixed message. -/
theorem C8_witness :
    (obtenerEmpleados (fun _ => Except.error (HttpError.status 500)) initState).1.mensajeEstado
      = "Error al conectar con el servidor." ∧
    (obtenerEmpleados (fun _ => Except.error (HttpError.status 500)) initState).1.esError
      = true ∧
    (agregarEmpleado (fun _ => Except.error HttpError.network)
        (fun _ => Except.error (HttpError.status 500))
        { initState with nombreInput := "Carla" }).1.mensajeEstado
      = "Error al agregar empleado." ∧
    (agregarEmpleado (fun _ => Except.error HttpError.network)
        (fun _ => Except.error (HttpError.status 500))
        { initState with nombreInput := "Carla" }).1.esError = true :=
  C8_exhaustion_messages (fun _ => Except.error (HttpError.status 500))
    (fun _ => Except.error HttpError.network)
    (fun _ => HttpError.status 500) (fun _ => HttpError.network)
    initState { initState with nombreInput := "Carla" }
    (by decide) (fun _ _ => rfl) (fun _ _ => rfl)

/-- Counterexample to C9: the write request actually issued by
`add("Ana")` targets path `/empleado` and carries the name under the JSON
field `nombre` — not path `/employee` with field `name` as the claim
states. -/
theorem C9_counterexample :
    (agregarEmpleado (fun _ => Except.ok ()) (fun _ => Except.ok [])
        { initState with nombreInput := "Ana" }).2.head?
      = some ⟨API_URL ++ "/empleado", "POST", [("nombre", "Ana")]⟩ ∧
    API_URL ++ "/empleado" ≠ API_URL ++ "/employee" ∧
    ([("nombre", "Ana")] : List (String × String)) ≠ [("name", "Ana")] := by
  refine ⟨by decide, by decide, by decide⟩

/-- C9 (amended): for every add with non-blank name, every write request
issued is `POST {API_URL}/empleado` with JSON body `{nombre: <trimmed name>}`
(the trimmed name under the field named "nombre", against the path
"/empleado"); success of the write phase requires only an `.ok ()` outcome —
a 2xx response whose body is not consumed — after which the input is
cleared. -/
theorem C9_agregarEmpleado_write_request (postOracle : Nat → Except HttpError Unit)
    (getOracle : Nat → Except HttpError (List Empleado)) (s : AppState)
    (hname : jsTrim s.nombreInput ≠ "") :
    (∀ r ∈ (agregarEmpleado postOracle getOracle s).2, r.method = "POST" →
      r = ⟨API_URL ++ "/empleado", "POST", [("nombre", jsTrim s.nombreInput)]⟩) ∧
    ((fetchWithRetry postOracle 0).result = Except.ok () →
      (agregarEmpleado postOracle getOracle s).1.nombreInput = "") := by
  constructor
  · intro r hr hpost
    cases hres : (fetchWithRetry postOracle 0).result with
    | ok u =>
      cases u
      rw [agregarEmpleado_ok_eq postOracle getOracle s hname hres] at hr
      simp only at hr
      rcases List.mem_append.mp hr with hr | hr
      · exact List.eq_of_mem_replicate hr
      · cases hres2 : (fetchWithRetry getOracle 0).result with
        | ok data =>
          rw [obtenerEmpleados_ok_eq getOracle data _ hres2] at hr
          have := List.eq_of_mem_replicate hr
          rw [this] at hpost
          exact absurd hpost (by decide)
        | error e =>
          rw [obtenerEmpleados_err_eq getOracle e _ hres2] at hr
          have := List.eq_of_mem_replicate hr
          rw [this] at hpost
          exact absurd hpost (by decide)
    | error e =>
      rw [agregarEmpleado_err_eq postOracle getOracle s hname e hres] at hr
      exact List.eq_of_mem_replicate hr
  · intro hres
    rw [agregarEmpleado_ok_eq postOracle getOracle s hname hres]
    cases hres2 : (fetchWithRetry getOracle 0).result with
    | ok data =>
      rw [obtenerEmpleados_ok_eq getOracle data _ hres2]
      have hf := mostrarMensaje_frame
        ("Lista actualizada (" ++ toString data.length ++ ") empleados") false
        { mostrarMensaje ("Empleado \"" ++ jsTrim s.nombreInput ++ "\" agregado ✅") false
            { s with isLoading := true, nombreInput := "" }
          with isLoading := true, empleados := sortEmpleados data, esError := false }
      simp only at hf ⊢
      rw [hf.2.2.2.1]
      exact (mostrarMensaje_frame _ false { s with isLoading := true, nombreInput := "" }).2.2.2.1
    | error e =>
      rw [obtenerEmpleados_err_eq getOracle e _ hres2]
      have hf := mostrarMensaje_frame "Error al conectar con el servidor." true
        { mostrarMensaje ("Empleado \"" ++ jsTrim s.nombreInput ++ "\" agregado ✅") false
            { s with isLoading := true, nombreInput := "" }
          with isLoading := true, empleados := [], esError := false }
      simp only at hf ⊢
      rw [hf.2.2.2.1]
      exact (mostrarMensaje_frame _ false { s with isLoading := true, nombreInput := "" }).2.2.2.1

/-- Witness for C9 (amended): add(" Ana ") posts the trimmed name "Ana"
under field "nombre" to /empleado and clears the input on success. -/
theorem C9_witness :
    (∀ r ∈ (agregarEmpleado (fun _ => Except.ok ()) (fun _ => Except.ok [])
        { initState with nombreInput := " Ana " }).2, r.method = "POST" →
      r = ⟨API_URL ++ "/empleado", "POST",
            [("nombre", jsTrim (AppState.nombreInput { initState with nombreInput := " Ana " }))]⟩) ∧
    ((fetchWithRetry (fun _ => Except.ok ()) 0).result = Except.ok () →
      (agregarEmpleado (fun _ => Except.ok ()) (fun _ => Except.ok [])
        { initState with nombreInput := " Ana " }).1.nombreInput = "") :=
  C9_agregarEmpleado_write_request (fun _ => Except.ok ()) (fun _ => Except.ok [])
    { initState with nombreInput := " Ana " } (by decide)

/-- C10 (implicit): a refresh that ends in failure leaves the employee
list empty — it is cleared at the start of the operation and never
restored on the error path, discarding whatever was displayed before. -/
theorem C10_obtenerEmpleados_failure_clears
    (oracle : Nat → Except HttpError (List Empleado)) (e : HttpError) (s : AppState)
    (h : (fetchWithRetry oracle 0).result = Except.error e) :
    (obtenerEmpleados oracle s).1.empleados = [] ∧
    (obtenerEmpleados oracle s).1.esError = true ∧
    (obtenerEmpleados oracle s).1.isLoading = false := by
  rw [obtenerEmpleados_err_eq oracle e s h]
  have hf := mostrarMensaje_frame "Error al conectar con el servidor." true
    { s with isLoading := true, empleados := [], esError := false }
  exact ⟨hf.2.2.1, rfl, rfl⟩

/-- Witness for C10: a failed refresh from a state that displayed one
employee leaves the list empty. -/
theorem C10_witness :
    (obtenerEmpleados (fun _ => Except.error HttpError.network)
        { initState with empleados := [⟨1, "A"⟩] }).1.empleados = [] ∧
    (obtenerEmpleados (fun _ => Except.error HttpError.network)
        { initState with empleados := [⟨1, "A"⟩] }).1.esError = true ∧
    (obtenerEmpleados (fun _ => Except.error HttpError.network)
        { initState with empleados := [⟨1, "A"⟩] }).1.isLoading = false :=
  C10_obtenerEmpleados_failure_clears (fun _ => Except.error HttpError.network)
    HttpError.network { initState with empleados := [⟨1, "A"⟩] } rfl
